import Mathlib

/-!
# Verification of the 0D global plasma model (`model.py`)

A shallow embedding of the numerical core of the zero-dimensional global
plasma model: physical constants, the `GlobalModel` instance data, the
power/particle balance terms, the state derivative `f_dy`, the sweep driver
`solve_for_I_coil`, the rate-constant table construction (`rate_constant`,
`load_chemistry`) and a model of `scipy.interpolate.interp1d` evaluation.

Machine reals are embedded as `ℝ`; the external auxiliary functions
(`u_B`, `A_eff`, `R_ind`, ... imported from `auxiliary_funcs`) are treated as
abstract pure functions supplied through the `Aux` structure, exactly as the
specification treats them (external collaborators, consumed as pure
functions).  Python name resolution failures (attribute lookup of a name the
program never defines, reference to an unbound module-level global) are
embedded with `Option` fields: `none` means the name is nowhere defined, and
reading it produces an `Except.error`.
-/

open Real

noncomputable section

/-- Elementary charge `e` from `scipy.constants` (exact SI value, C). -/
def e_c : ℝ := 1.602176634e-19

/-- Boltzmann constant `k` from `scipy.constants` (exact SI value, J/K). -/
def k_B : ℝ := 1.380649e-23

/-- Electron mass `m_e` from `scipy.constants` (CODATA value, kg). -/
def m_e_c : ℝ := 9.1093837015e-31

/-- The Python-level error outcomes the embedded code can surface, together
with the error classes named by the specification's taxonomy (`RangeError`,
`ConfigError`, `DomainError`).  `attributeError` is Python's `AttributeError`
(attribute lookup on a name the object does not carry) and `nameError` is
Python's `NameError` (reference to an unbound module-level global). -/
inductive PyErr where
  | attributeError : PyErr
  | nameError : PyErr
  | rangeError : PyErr
  | configError : PyErr
  | domainError : PyErr
  deriving DecidableEq, Repr

/-- Reading an instance attribute: `none` (never assigned) raises
`AttributeError`. -/
def getattrOpt {α : Type} : Option α → Except PyErr α
  | none => .error .attributeError
  | some a => .ok a

/-- Reading a module-level global: unbound names raise `NameError`. -/
def getGlobal {α : Type} : Option α → Except PyErr α
  | none => .error .nameError
  | some a => .ok a

/-- The external auxiliary functions imported from `auxiliary_funcs`
(`pressure`, `maxwellian_flux_speed`, `u_B`, `A_eff`, `A_eff_1`, `SIGMA_I`,
`R_ind`, `h_L`).  They are outside the core and are modelled as abstract pure
functions, with argument lists matching their call sites in `model.py`. -/
structure Aux where
  pressure : ℝ → ℝ → ℝ → ℝ → ℝ
  maxwellian_flux_speed : ℝ → ℝ → ℝ
  u_B : ℝ → ℝ → ℝ
  A_eff : ℝ → ℝ → ℝ → ℝ
  A_eff_1 : ℝ → ℝ → ℝ → ℝ → ℝ
  SIGMA_I : ℝ
  R_ind : ℝ → ℝ → ℝ → ℝ → ℝ → ℝ → ℝ → ℝ

/-- Module-level global names that the bodies of `P_loss` and `gas_heating`
reference but that `model.py` itself never binds (`E_diss`, `E_vibr`,
`E_rot`, `K_vibr`).  In the program as shipped all four are unbound
(`none`); a caller could in principle inject them into the module namespace,
which the `some` case models. -/
structure Globals where
  E_diss : Option ℝ := none
  E_vibr : Option ℝ := none
  E_rot : Option ℝ := none
  K_vibr : Option ℝ := none

/-- The instance attributes of a `GlobalModel` object.  The fields assigned
by `load_chemistry` (`K_el`, `K_ex`, `K_iz`, `E_iz`, `E_ex`) and
`load_config` (the scalar configuration, `I_coil` included) are plain
fields.  `K_diss`, `E_diss`, `K_vibr`, `K_rot` are referenced through `self`
by `P_loss` and `gas_heating` but assigned nowhere in the class, so they are
`Option` fields, `none` on every constructed instance. -/
structure Model where
  K_el : ℝ → ℝ
  K_ex : ℝ → ℝ
  K_iz : ℝ → ℝ
  E_iz : ℝ
  E_ex : ℝ
  R : ℝ
  L : ℝ
  m_i : ℝ
  Q_g : ℝ
  beta_g : ℝ
  kappa : ℝ
  beta_i : ℝ
  V_grid : ℝ
  omega : ℝ
  N : ℝ
  R_coil : ℝ
  I_coil : ℝ
  T_e_0 : ℝ
  n_e_0 : ℝ
  T_g_0 : ℝ
  n_g_0 : ℝ
  K_diss : Option (ℝ → ℝ) := none
  E_diss : Option ℝ := none
  K_vibr : Option (ℝ → ℝ) := none
  K_rot : Option (ℝ → ℝ) := none

namespace Model

/-- Property `A_g`: grid area open to neutrals. -/
def A_g (m : Model) : ℝ := m.beta_g * π * m.R ^ 2

/-- Property `A_i`: grid area open to ions. -/
def A_i (m : Model) : ℝ := m.beta_i * π * m.R ^ 2

/-- Property `V`: chamber volume. -/
def V (m : Model) : ℝ := π * m.R ^ 2 * m.L

/-- Property `A`: total chamber surface area. -/
def A (m : Model) : ℝ := 2 * π * m.R ^ 2 + 2 * π * m.R * m.L

end Model

/-- `GlobalModel.P_abs`: absorbed RF power
`R_ind(R, L, N, omega, n_e, n_g, K_el(T_e)) * I_coil**2 / 2`. -/
def P_abs (aux : Aux) (m : Model) (T_e n_e n_g : ℝ) : ℝ :=
  aux.R_ind m.R m.L m.N m.omega n_e n_g (m.K_el T_e) * m.I_coil ^ 2 / 2

/-- The four classical loss channels of `P_loss` (terms `a`, `b`, `c`, `d`
of the body): ionization, excitation, elastic transfer, wall loss. -/
def P_loss_four (aux : Aux) (m : Model) (T_e T_g n_e n_g : ℝ) : ℝ :=
  m.E_iz * n_e * n_g * m.K_iz T_e
    + m.E_ex * n_e * n_g * m.K_ex T_e
    + 3 * (m_e_c / m.m_i) * k_B * (T_e - T_g) * n_e * n_g * m.K_el T_e
    + 7 * k_B * T_e * n_e * aux.u_B T_e m.m_i * aux.A_eff n_g m.R m.L / m.V

/-- `GlobalModel.P_loss`: the electron power-loss rate.  The body sums the
four classical channels and then the extended-chemistry terms
`self.E_diss * n_e * n_g * self.K_diss(T_e)` and
`E_vibr * n_e * n_g * K_vibr`; the lookups happen in the body's source
order (`self.K_diss`, `self.E_diss`, then the globals `E_vibr`, `K_vibr`). -/
def P_loss (aux : Aux) (g : Globals) (m : Model) (T_e T_g n_e n_g : ℝ) :
    Except PyErr ℝ :=
  match getattrOpt m.K_diss with
  | .error err => .error err
  | .ok Kdiss =>
    match getattrOpt m.E_diss with
    | .error err => .error err
    | .ok Ediss =>
      match getGlobal g.E_vibr with
      | .error err => .error err
      | .ok Evibr =>
        match getGlobal g.K_vibr with
        | .error err => .error err
        | .ok Kvibr =>
          .ok (P_loss_four aux m T_e T_g n_e n_g
                + Ediss * n_e * n_g * Kdiss T_e
                + Evibr * n_e * n_g * Kvibr)

/-- Module-level `gas_heating`: derivative of the gas energy.  The body
looks up `self.K_diss`, `self.K_vibr`, `self.K_rot`, then sums elastic
transfer, ion-neutral transfer, dissociation/vibrational/rotational terms
(whose thresholds `E_diss`, `E_vibr`, `E_rot` are module globals), minus the
wall heat-loss term with diffusion length `R/2.405 + L/π`. -/
def gas_heating (aux : Aux) (g : Globals) (m : Model) (T_e T_g n_e n_g : ℝ) :
    Except PyErr ℝ :=
  match getattrOpt m.K_diss with
  | .error err => .error err
  | .ok Kdiss =>
    match getattrOpt m.K_vibr with
    | .error err => .error err
    | .ok Kvibr =>
      match getattrOpt m.K_rot with
      | .error err => .error err
      | .ok Krot =>
        match getGlobal g.E_diss with
        | .error err => .error err
        | .ok Ediss =>
          match getGlobal g.E_vibr with
          | .error err => .error err
          | .ok Evibr =>
            match getGlobal g.E_rot with
            | .error err => .error err
            | .ok Erot =>
              let lambda_0 := m.R / 2.405 + m.L / π
              .ok (3 * (m_e_c / m.m_i) * k_B * (T_e - T_g) * n_e * n_g * m.K_el T_e
                    + (1 / 4) * m.m_i * (aux.u_B T_e m.m_i) ^ 2 * n_e * n_g
                        * aux.SIGMA_I * aux.maxwellian_flux_speed T_g m.m_i
                    + Ediss * n_e * n_g * Kdiss T_e
                    + Evibr * n_e * n_g * Kvibr T_e
                    + Erot * n_e * n_g * Krot T_e
                    - m.kappa * (T_g - m.T_g_0) * m.A / (m.V * lambda_0))

/-- `particle_balance_e`: derivative of the electron density,
ionization production minus wall-loss flux. -/
def particle_balance_e (aux : Aux) (m : Model) (T_e T_g n_e n_g : ℝ) : ℝ :=
  n_e * n_g * m.K_iz T_e
    - n_e * aux.u_B T_e m.m_i * aux.A_eff n_g m.R m.L / m.V

/-- `particle_balance_g`: derivative of the neutral gas density:
inflow plus backflow minus ionization minus effusive wall loss. -/
def particle_balance_g (aux : Aux) (m : Model) (T_e T_g n_e n_g : ℝ) : ℝ :=
  m.Q_g / m.V
    + n_e * aux.u_B T_e m.m_i * aux.A_eff_1 n_g m.R m.L m.beta_i / m.V
    - n_e * n_g * m.K_iz T_e
    - (1 / 4) * n_g * aux.maxwellian_flux_speed T_g m.m_i * m.A_g / m.V

/-- `P_rf`: power delivered by the coil,
`(1/2) * (R_ind + R_coil) * I_coil**2`. -/
def P_rf (aux : Aux) (m : Model) (T_e T_g n_e n_g : ℝ) : ℝ :=
  (1 / 2) * (aux.R_ind m.R m.L m.N m.omega n_e n_g (m.K_el T_e) + m.R_coil)
    * m.I_coil ^ 2

/-- `f_dy`: right-hand side of the 4-variable ODE system on the state
vector `y = (T_e, T_g, n_e, n_g)`.  The temperature components apply the
energy-balance product rule and divide by the respective density; the
density components are the particle balances.  Name resolution of the
component functions themselves is modelled separately (see
`classAttrNames`); here the body's arithmetic is embedded, with the errors
of `P_loss` and `gas_heating` propagating in source evaluation order. -/
def f_dy (aux : Aux) (g : Globals) (m : Model) (t : ℝ) (y : Fin 4 → ℝ) :
    Except PyErr (Fin 4 → ℝ) :=
  let T_e := y 0
  let T_g := y 1
  let n_e := y 2
  let n_g := y 3
  let pbe := particle_balance_e aux m T_e T_g n_e n_g
  let pbg := particle_balance_g aux m T_e T_g n_e n_g
  match P_loss aux g m T_e T_g n_e n_g with
  | .error err => .error err
  | .ok pl =>
    match gas_heating aux g m T_e T_g n_e n_g with
    | .error err => .error err
    | .ok gh =>
      .ok ![(2 / (3 * k_B) * (P_abs aux m T_e n_e n_g - pl) - T_e * pbe) / n_e,
            (2 / (3 * k_B) * gh - T_g * pbg) / n_g,
            pbe,
            pbg]

/-- The numerical integrator (`scipy.integrate.solve_ivp` with LSODA):
an external routine taking the right-hand side, the time interval and the
initial state, and producing the trajectory's final state.  Modelled as an
abstract function supplied to `solve`. -/
def Ivp : Type :=
  (ℝ → (Fin 4 → ℝ) → Except PyErr (Fin 4 → ℝ)) → ℝ × ℝ → (Fin 4 → ℝ) → (Fin 4 → ℝ)

/-- `solve`: integrate `f_dy` from the configured initial state
`y0 = [T_e_0, T_g_0, n_e_0, n_g_0]` over `(t0, tf)`. -/
def solve (ivp : Ivp) (aux : Aux) (g : Globals) (m : Model) (t0 tf : ℝ) :
    Fin 4 → ℝ :=
  ivp (f_dy aux g m) (t0, tf) ![m.T_e_0, m.T_g_0, m.n_e_0, m.n_g_0]

/-- `solve_for_I_coil`: the sweep driver.  For each drive current the loop
assigns `self.I_coil = I` (a mutation of the shared model object, threaded
here as explicit state), integrates over `(0, 5e-2)`, records
`P_rf` at the trajectory's final state and the final state itself.  Returns
the power list, the final-state list, and the model object as it stands
after the loop. -/
def solve_for_I_coil (ivp : Ivp) (aux : Aux) (g : Globals) (m : Model) :
    List ℝ → List ℝ × List (Fin 4 → ℝ) × Model
  | [] => ([], [], m)
  | I :: rest =>
    let m1 := { m with I_coil := I }
    let yf := solve ivp aux g m1 0 5e-2
    let res := solve_for_I_coil ivp aux g m1 rest
    (P_rf aux m1 (yf 0) (yf 1) (yf 2) (yf 3) :: res.1, yf :: res.2.1, res.2.2)

/-! ## Rate-constant table construction -/

/-- `np.linspace a b n`: `n` evenly spaced samples from `a` to `b`. -/
def linspace (a b : ℝ) (n : ℕ) : List ℝ :=
  (List.range n).map fun i : ℕ => a + (i : ℝ) * (b - a) / ((n : ℝ) - 1)

/-- `scipy.integrate.trapezoid ys x=xs`: trapezoidal quadrature of the
samples `ys` against the abscissae `xs`. -/
def trapezoid : List ℝ → List ℝ → ℝ
  | y1 :: y2 :: ys, x1 :: x2 :: xs =>
      (x2 - x1) * (y1 + y2) / 2 + trapezoid (y2 :: ys) (x2 :: xs)
  | _, _ => 0

/-- `GlobalModel.rate_constant` at one grid temperature `Tk` (in kelvin):
convert to volts (`T = Tk*k/e`), form the speed axis `v = sqrt(2*E*e/m)`
from the cross-section energy axis `E` (eV), and integrate the Maxwellian
flux integrand `a * cs * v^3 * exp(-m*v^2/(2*e*T))` with prefactor
`a = (m/(2*pi*e*T))^(3/2) * 4*pi` over `v` by the trapezoidal rule. -/
def rate_constant (E cs : List ℝ) (m Tk : ℝ) : ℝ :=
  let T := Tk * k_B / e_c
  let v := E.map fun En => Real.sqrt (2 * En * e_c / m)
  let a := (m / (2 * π * e_c * T)) ^ ((3 : ℝ) / 2) * 4 * π
  trapezoid ((cs.zip v).map fun p => a * (p.1 * p.2 ^ 3
    * Real.exp (-(m * p.2 ^ 2) / (2 * e_c * T)))) v

/-- Modelled from the spec (§4.1): the same quadrature in the spec's
variables — grid temperature expressed as thermal energy `T = k_B·Tk`,
energy axis in joules, speed `v = sqrt(2·E/m)`, integrand
`a(T)·σ(v)·v³·exp(−m·v²/(2·T))` with `a(T) = (m/(2π·T))^(3/2)·4π`,
integrated over `v` by the trapezoidal rule.  Used only to compare with
`rate_constant`. -/
def rate_constant_spec (E cs : List ℝ) (m Tk : ℝ) : ℝ :=
  let T := k_B * Tk
  let v := (E.map fun EeV => e_c * EeV).map fun Ej => Real.sqrt (2 * Ej / m)
  let a := (m / (2 * π * T)) ^ ((3 : ℝ) / 2) * 4 * π
  trapezoid ((cs.zip v).map fun p => a * (p.1 * p.2 ^ 3
    * Real.exp (-(m * p.2 ^ 2) / (2 * T)))) v

/-- The fixed temperature grid of `load_chemistry`:
`np.linspace(0.1 * e / k, 100 * e / k, 5000)` (kelvin equivalents of
0.1 eV and 100 eV). -/
def chemGrid : List ℝ := linspace (0.1 * e_c / k_B) (100 * e_c / k_B) 5000

/-- The rate-constant array of one channel: `rate_constant` mapped over the
grid (`self.rate_constant(T, e_X, cs_X, m_e)`). -/
def kArray (E cs : List ℝ) : List ℝ := chemGrid.map (rate_constant E cs m_e_c)

/-! ## `scipy.interpolate.interp1d` -/

/-- The data of a built `interp1d` object: abscissae, ordinates, the
`fill_value` pair and the `bounds_error` flag. -/
structure Interp1d where
  xs : List ℝ
  ys : List ℝ
  fillLo : ℝ
  fillHi : ℝ
  boundsError : Bool

/-- Piecewise-linear interpolation through the sample lists (the in-range
behaviour of `interp1d`). -/
def piecewiseLin : List ℝ → List ℝ → ℝ → ℝ
  | x1 :: x2 :: xs, y1 :: y2 :: ys, x =>
      if x ≤ x2 then y1 + (y2 - y1) * (x - x1) / (x2 - x1)
      else piecewiseLin (x2 :: xs) (y2 :: ys) x
  | _ :: [], y1 :: _, _ => y1
  | _, _, _ => 0

/-- Evaluating a built `interp1d` at `x`: below the first abscissa `x[0]`
or above the last one `x[-1]`, raise (`bounds_error=True`, surfaced as the
out-of-range error) or clamp to the `fill_value`; otherwise interpolate
linearly. -/
def interpEval (f : Interp1d) (x : ℝ) : Except PyErr ℝ :=
  match f.xs[0]?, f.xs[f.xs.length - 1]? with
  | some x0, some xN =>
      if x < x0 then
        (if f.boundsError then .error .rangeError else .ok f.fillLo)
      else if xN < x then
        (if f.boundsError then .error .rangeError else .ok f.fillHi)
      else .ok (piecewiseLin f.xs f.ys x)
  | _, _ => .error .rangeError

/-- One channel's table as `load_chemistry` builds it:
`interp1d(T, k_array, fill_value=(k_array[0], k_array[-1]),
bounds_error=True)`. -/
def load_channel (E cs : List ℝ) : Interp1d :=
  { xs := chemGrid
    ys := kArray E cs
    fillLo := (kArray E cs).headI
    fillHi := (kArray E cs).getLastI
    boundsError := true }

/-- `load_chemistry`: the three channel tables (elastic, excitation,
ionization), each built by the same procedure over the same grid from its
own cross-section curve. -/
def load_chemistry (e_el cs_el e_ex cs_ex e_iz cs_iz : List ℝ) :
    Interp1d × Interp1d × Interp1d :=
  (load_channel e_el cs_el, load_channel e_ex cs_ex, load_channel e_iz cs_iz)

/-! ## Python attribute resolution on `GlobalModel` instances -/

/-- The names bound in the class body of `GlobalModel` (its methods and
properties).  `P_loss`, `P_abs` and `electron_heating` are the last
class-level definitions: the module-level `def gas_heating` at column 0
ends the class body, and `particle_balance_e`, `particle_balance_g`,
`P_rf`, `f_dy`, `solve` and `solve_for_I_coil` are nested (one indentation
level down) inside `gas_heating`'s body, after its `return` statement, so
none of them is a class attribute. -/
def classAttrNames : List String :=
  ["__init__", "load_chemistry", "rate_constant", "load_config",
   "A_g", "A_i", "V", "A", "v_beam", "flux_i", "thrust_i", "j_i",
   "eval_property", "P_loss", "P_abs", "electron_heating"]

/-- The instance attributes assigned by the constructor
(`load_chemistry` then `load_config`). -/
def instanceAttrNames : List String :=
  ["K_el", "K_ex", "K_iz", "E_iz", "E_ex",
   "R", "L", "m_i", "Q_g", "beta_g", "kappa", "beta_i", "V_grid",
   "omega", "N", "R_coil", "I_coil", "T_e_0", "n_e_0", "T_g_0", "n_g_0"]

/-- Attribute lookup `instance.name` on a constructed `GlobalModel`
succeeds exactly when `name` is an instance attribute or a class attribute;
otherwise Python raises `AttributeError`. -/
def getattrFound (name : String) : Bool :=
  name ∈ instanceAttrNames || name ∈ classAttrNames

/-! ## Concrete instances used for evaluations -/

/-- A trivial instantiation of the external auxiliary functions (all
identically zero), used to evaluate the embedded code at concrete points. -/
def auxZ : Aux :=
  { pressure := fun _ _ _ _ => 0
    maxwellian_flux_speed := fun _ _ => 0
    u_B := fun _ _ => 0
    A_eff := fun _ _ _ => 0
    A_eff_1 := fun _ _ _ _ => 0
    SIGMA_I := 0
    R_ind := fun _ _ _ _ _ _ _ => 0 }

/-- The module namespace as `model.py` ships it: none of `E_diss`,
`E_vibr`, `E_rot`, `K_vibr` is bound. -/
def gNone : Globals := {}

/-- A module namespace into which all four extended-chemistry globals have
been injected (each as `0`). -/
def gFull : Globals :=
  { E_diss := some 0, E_vibr := some 0, E_rot := some 0, K_vibr := some 0 }

/-- A concrete constructed instance: the chemistry fields as the
constructor leaves them (in particular no `K_diss`, `E_diss`, `K_vibr`,
`K_rot`), simple scalar configuration values. -/
def mXe : Model :=
  { K_el := fun _ => 0
    K_ex := fun _ => 0
    K_iz := fun _ => 0
    E_iz := 1
    E_ex := 1
    R := 1
    L := 1
    m_i := 1
    Q_g := 0
    beta_g := 1
    kappa := 0
    beta_i := 1
    V_grid := 1
    omega := 1
    N := 1
    R_coil := 1
    I_coil := 3
    T_e_0 := 1
    n_e_0 := 1
    T_g_0 := 1
    n_g_0 := 1 }

/-- `mXe` with the four extended-chemistry attributes injected (as zero
rates/thresholds), so that every attribute lookup succeeds. -/
def mFull : Model :=
  { mXe with
    K_diss := some fun _ => 0
    E_diss := some 0
    K_vibr := some fun _ => 0
    K_rot := some fun _ => 0 }

/-- A trivial instantiation of the integrator: it returns the initial
state as the final state. -/
def ivpZ : Ivp := fun _ _ y0 => y0

/-- The all-ones state vector. -/
def yOne : Fin 4 → ℝ := fun _ => 1

/-- A state vector with zero electron density (`n_e = y 2 = 0`) and all
other components one. -/
def yNeZero : Fin 4 → ℝ := fun i => if i.val = 2 then 0 else 1

/-! ## Helper lemmas -/

lemma e_c_ne_zero : e_c ≠ 0 := by norm_num [e_c]

lemma chemGrid_length : chemGrid.length = 5000 := by
  simp only [chemGrid, linspace, List.length_map, List.length_range]

lemma chemGrid_getElem (i : ℕ) (h : i < 5000) :
    chemGrid[i]? = some (0.1 * e_c / k_B
      + i * (100 * e_c / k_B - 0.1 * e_c / k_B) / 4999) := by
  simp only [chemGrid, linspace]
  rw [List.getElem?_map, List.getElem?_range h]
  norm_num

lemma chemGrid_first : chemGrid[0]? = some (0.1 * e_c / k_B) := by
  rw [chemGrid_getElem 0 (by norm_num)]
  norm_num

lemma chemGrid_last : chemGrid[4999]? = some (100 * e_c / k_B) := by
  rw [chemGrid_getElem 4999 (by norm_num)]
  congr 1
  ring

lemma chemTmin_le_chemTmax : 0.1 * e_c / k_B ≤ 100 * e_c / k_B := by
  norm_num [e_c, k_B]

/-- Evaluation of one built channel reduces to the range check around the
grid's first and last temperature. -/
lemma interpEval_load_channel (E cs : List ℝ) (x : ℝ) :
    interpEval (load_channel E cs) x =
      if x < 0.1 * e_c / k_B then .error .rangeError
      else if 100 * e_c / k_B < x then .error .rangeError
      else .ok (piecewiseLin chemGrid (kArray E cs) x) := by
  unfold interpEval load_channel
  dsimp only
  rw [chemGrid_length]
  rw [show (5000 - 1 : Nat) = 4999 from rfl]
  rw [chemGrid_first, chemGrid_last]
  rfl

lemma sweep_fst_length (ivp : Ivp) (aux : Aux) (g : Globals) (m : Model)
    (I : List ℝ) :
    (solve_for_I_coil ivp aux g m I).1.length = I.length := by
  induction I generalizing m with
  | nil => rfl
  | cons a rest ih => simp [solve_for_I_coil, ih]

lemma sweep_snd_length (ivp : Ivp) (aux : Aux) (g : Globals) (m : Model)
    (I : List ℝ) :
    (solve_for_I_coil ivp aux g m I).2.1.length = I.length := by
  induction I generalizing m with
  | nil => rfl
  | cons a rest ih => simp [solve_for_I_coil, ih]

lemma sweep_getElem (ivp : Ivp) (aux : Aux) (g : Globals) (m : Model)
    (I : List ℝ) (i : ℕ) (hi : i < I.length) :
    (solve_for_I_coil ivp aux g m I).1[i]? =
      some (P_rf aux { m with I_coil := I.getD i 0 }
          (solve ivp aux g { m with I_coil := I.getD i 0 } 0 5e-2 0)
          (solve ivp aux g { m with I_coil := I.getD i 0 } 0 5e-2 1)
          (solve ivp aux g { m with I_coil := I.getD i 0 } 0 5e-2 2)
          (solve ivp aux g { m with I_coil := I.getD i 0 } 0 5e-2 3))
    ∧ (solve_for_I_coil ivp aux g m I).2.1[i]? =
      some (solve ivp aux g { m with I_coil := I.getD i 0 } 0 5e-2) := by
  induction I generalizing m i with
  | nil => simp at hi
  | cons a rest ih =>
    cases i with
    | zero =>
      constructor <;> simp [solve_for_I_coil]
    | succ n =>
      have hn : n < rest.length := by simpa using hi
      have h := ih { m with I_coil := a } n hn
      simpa [solve_for_I_coil] using h

lemma sweep_model (ivp : Ivp) (aux : Aux) (g : Globals) (m : Model)
    (I : List ℝ) :
    (solve_for_I_coil ivp aux g m I).2.2 =
      { m with I_coil := I.getLast?.getD m.I_coil } := by
  induction I generalizing m with
  | nil => rfl
  | cons a rest ih =>
    rw [show (solve_for_I_coil ivp aux g m (a :: rest)).2.2
        = (solve_for_I_coil ivp aux g { m with I_coil := a } rest).2.2 from rfl]
    rw [ih]
    cases rest with
    | nil => rfl
    | cons b t =>
      have hsome : ((b :: t).getLast?).isSome := by
        rw [List.getLast?_isSome]
        simp
      obtain ⟨l, hl⟩ := Option.isSome_iff_exists.mp hsome
      rw [List.getLast?_cons_cons, hl]
      rfl

lemma P_loss_eq_of_some (aux : Aux) (g : Globals) (m : Model)
    (T_e T_g n_e n_g : ℝ) (Kd : ℝ → ℝ) (Ed Ev Kv : ℝ)
    (hKd : m.K_diss = some Kd) (hEd : m.E_diss = some Ed)
    (hEv : g.E_vibr = some Ev) (hKv : g.K_vibr = some Kv) :
    P_loss aux g m T_e T_g n_e n_g =
      .ok (P_loss_four aux m T_e T_g n_e n_g
        + Ed * n_e * n_g * Kd T_e + Ev * n_e * n_g * Kv) := by
  rw [P_loss, hKd, hEd, hEv, hKv]
  rfl

lemma P_loss_none (aux : Aux) (g : Globals) (m : Model)
    (T_e T_g n_e n_g : ℝ) (hKd : m.K_diss = none) :
    P_loss aux g m T_e T_g n_e n_g = .error .attributeError := by
  rw [P_loss, hKd]
  rfl

lemma gas_heating_none (aux : Aux) (g : Globals) (m : Model)
    (T_e T_g n_e n_g : ℝ) (hKd : m.K_diss = none) :
    gas_heating aux g m T_e T_g n_e n_g = .error .attributeError := by
  rw [gas_heating, hKd]
  rfl

lemma f_dy_ok (aux : Aux) (g : Globals) (m : Model) (t : ℝ)
    (y : Fin 4 → ℝ) (pl gh : ℝ)
    (hpl : P_loss aux g m (y 0) (y 1) (y 2) (y 3) = .ok pl)
    (hgh : gas_heating aux g m (y 0) (y 1) (y 2) (y 3) = .ok gh) :
    f_dy aux g m t y =
      .ok ![(2 / (3 * k_B) * (P_abs aux m (y 0) (y 2) (y 3) - pl)
              - y 0 * particle_balance_e aux m (y 0) (y 1) (y 2) (y 3)) / y 2,
            (2 / (3 * k_B) * gh
              - y 1 * particle_balance_g aux m (y 0) (y 1) (y 2) (y 3)) / y 3,
            particle_balance_e aux m (y 0) (y 1) (y 2) (y 3),
            particle_balance_g aux m (y 0) (y 1) (y 2) (y 3)] := by
  rw [f_dy, hpl, hgh]

lemma P_loss_auxZ_eval (a b c d : ℝ) :
    P_loss auxZ gFull mFull a b c d = .ok 0 := by
  rw [P_loss_eq_of_some auxZ gFull mFull a b c d (fun _ => 0) 0 0 0
    rfl rfl rfl rfl]
  norm_num [P_loss_four, auxZ, mFull, mXe]

lemma gas_heating_auxZ_eval (a b c d : ℝ) :
    gas_heating auxZ gFull mFull a b c d = .ok 0 := by
  rw [gas_heating]
  norm_num [auxZ, mFull, mXe, gFull, getattrOpt, getGlobal]

lemma rate_constant_eq_spec (E cs : List ℝ) (m Tk : ℝ) :
    rate_constant E cs m Tk = rate_constant_spec E cs m Tk := by
  have hT : e_c * (Tk * k_B / e_c) = k_B * Tk := by
    field_simp [e_c_ne_zero]
    ring
  have h1 : 2 * π * e_c * (Tk * k_B / e_c) = 2 * π * (k_B * Tk) := by
    rw [mul_assoc, hT]
  have h2 : 2 * e_c * (Tk * k_B / e_c) = 2 * (k_B * Tk) := by
    rw [mul_assoc, hT]
  have h3 : ∀ En : ℝ, 2 * (e_c * En) / m = 2 * En * e_c / m := fun En => by
    ring
  simp only [rate_constant, rate_constant_spec, List.map_map,
    Function.comp_def, h1, h2, h3]

/-! ## Claim theorems -/

/-- C1: the state derivative maps `(T_e, T_g, n_e, n_g)` to the 4-vector
whose temperature components follow the product-rule decomposition
`dT/dt = ((2/(3 k_B)) * power term - T * density derivative) / n` — with
power term `P_abs - P_loss`, density derivative `particle_balance_e`,
`n = n_e` for the electron channel, and power term `gas_heating`, density
derivative `particle_balance_g`, `n = n_g` for the gas channel — and whose
third and fourth components are the two particle balances; for every state
with `n_e` and `n_g` nonzero (whenever the power terms evaluate). -/
theorem C1_state_derivative_decomposition (aux : Aux) (g : Globals)
    (m : Model) (t : ℝ) (y : Fin 4 → ℝ) (pl gh : ℝ)
    (hne : y 2 ≠ 0) (hng : y 3 ≠ 0)
    (hpl : P_loss aux g m (y 0) (y 1) (y 2) (y 3) = .ok pl)
    (hgh : gas_heating aux g m (y 0) (y 1) (y 2) (y 3) = .ok gh) :
    f_dy aux g m t y =
      .ok ![(2 / (3 * k_B) * (P_abs aux m (y 0) (y 2) (y 3) - pl)
              - y 0 * particle_balance_e aux m (y 0) (y 1) (y 2) (y 3)) / y 2,
            (2 / (3 * k_B) * gh
              - y 1 * particle_balance_g aux m (y 0) (y 1) (y 2) (y 3)) / y 3,
            particle_balance_e aux m (y 0) (y 1) (y 2) (y 3),
            particle_balance_g aux m (y 0) (y 1) (y 2) (y 3)] := by
  rw [f_dy, hpl, hgh]

/-- Witness for C1 at a concrete model and the all-ones state. -/
theorem C1_state_derivative_decomposition_witness :
    f_dy auxZ gFull mFull 0 yOne =
      .ok ![(2 / (3 * k_B) * (P_abs auxZ mFull (yOne 0) (yOne 2) (yOne 3) - 0)
              - yOne 0 * particle_balance_e auxZ mFull (yOne 0) (yOne 1) (yOne 2) (yOne 3)) / yOne 2,
            (2 / (3 * k_B) * 0
              - yOne 1 * particle_balance_g auxZ mFull (yOne 0) (yOne 1) (yOne 2) (yOne 3)) / yOne 3,
            particle_balance_e auxZ mFull (yOne 0) (yOne 1) (yOne 2) (yOne 3),
            particle_balance_g auxZ mFull (yOne 0) (yOne 1) (yOne 2) (yOne 3)] :=
  C1_state_derivative_decomposition auxZ gFull mFull 0 yOne 0 0
    one_ne_zero one_ne_zero (P_loss_auxZ_eval _ _ _ _)
    (gas_heating_auxZ_eval _ _ _ _)

/-- C2 counterexample: at a state whose electron temperature `e_c/k_B`
(1 eV) lies inside the built grid, `P_loss` on a constructed instance does
not return the four-channel sum: the extended-chemistry lookups fail
first. -/
theorem C2_counterexample :
    (0.1 * e_c / k_B ≤ e_c / k_B ∧ e_c / k_B ≤ 100 * e_c / k_B)
    ∧ P_loss auxZ gNone mXe (e_c / k_B) 1 1 1 ≠
        Except.ok (P_loss_four auxZ mXe (e_c / k_B) 1 1 1) := by
  refine ⟨⟨by norm_num [e_c, k_B], by norm_num [e_c, k_B]⟩, ?_⟩
  rw [P_loss_none auxZ gNone mXe _ _ _ _ rfl]
  simp

/-- C2 (amended): `P_loss` is the four listed channels plus a dissociation
term `E_diss*n_e*n_g*K_diss(T_e)` and a vibrational term
`E_vibr*n_e*n_g*K_vibr`; whenever those extra names are defined the result
is this six-term sum (and on a bare constructed instance the lookup of
`K_diss` fails instead, see the counterexample). -/
theorem C2_P_loss_four_plus_extended (aux : Aux) (g : Globals) (m : Model)
    (T_e T_g n_e n_g : ℝ) (Kd : ℝ → ℝ) (Ed Ev Kv : ℝ)
    (hKd : m.K_diss = some Kd) (hEd : m.E_diss = some Ed)
    (hEv : g.E_vibr = some Ev) (hKv : g.K_vibr = some Kv) :
    P_loss aux g m T_e T_g n_e n_g =
      .ok (P_loss_four aux m T_e T_g n_e n_g
        + Ed * n_e * n_g * Kd T_e + Ev * n_e * n_g * Kv) :=
  P_loss_eq_of_some aux g m T_e T_g n_e n_g Kd Ed Ev Kv hKd hEd hEv hKv

/-- Witness for the amended C2 at a concrete instance with the extended
names injected. -/
theorem C2_P_loss_four_plus_extended_witness :
    P_loss auxZ gFull mFull 1 1 1 1 =
      .ok (P_loss_four auxZ mFull 1 1 1 1
        + 0 * 1 * 1 * (fun _ : ℝ => (0 : ℝ)) 1 + 0 * 1 * 1 * 0) :=
  C2_P_loss_four_plus_extended auxZ gFull mFull 1 1 1 1
    (fun _ => 0) 0 0 0 rfl rfl rfl rfl

/-- C3: the rate-constant table of every channel is built over the fixed
linear grid of 5000 temperatures spanning the kelvin equivalents of
0.1 eV and 100 eV, each entry is the trapezoidal quadrature, over the speed
axis derived from the cross-section energies, of the Maxwellian flux
integrand with prefactor `(m/(2 pi T))^(3/2) * 4 pi` (`rate_constant`
agrees with the spec-form quadrature `rate_constant_spec` at every
temperature), and all three channels (elastic, excitation, ionization) use
the same grid and the same procedure. -/
theorem C3_rate_constant_table :
    chemGrid = linspace (0.1 * e_c / k_B) (100 * e_c / k_B) 5000
    ∧ chemGrid.length = 5000
    ∧ chemGrid[0]? = some (0.1 * e_c / k_B)
    ∧ chemGrid[4999]? = some (100 * e_c / k_B)
    ∧ (∀ E cs : List ℝ, ∀ Tk : ℝ,
        rate_constant E cs m_e_c Tk = rate_constant_spec E cs m_e_c Tk)
    ∧ (∀ E cs : List ℝ,
        (load_channel E cs).xs = chemGrid
        ∧ (load_channel E cs).ys = kArray E cs
        ∧ kArray E cs = chemGrid.map (rate_constant E cs m_e_c))
    ∧ (∀ eEl csEl eEx csEx eIz csIz : List ℝ,
        load_chemistry eEl csEl eEx csEx eIz csIz =
          (load_channel eEl csEl, load_channel eEx csEx,
            load_channel eIz csIz)) := by
  refine ⟨?_, ?_, ?_, ?_, ?_, ?_, ?_⟩
  · rfl
  · exact chemGrid_length
  · exact chemGrid_first
  · exact chemGrid_last
  · exact fun E cs Tk => rate_constant_eq_spec E cs m_e_c Tk
  · intro E cs
    refine ⟨?_, ?_, ?_⟩
    · simp only [load_channel]
    · simp only [load_channel]
    · simp only [kArray]
  · intro eEl csEl eEx csEx eIz csIz
    rfl

/-- C4: every sweep point integrates from the same configured initial
state `![T_e_0, T_g_0, n_e_0, n_g_0]` — never from the previous point's
final state — and the output consists of parallel index-aligned lists:
at index `i` the recorded power and final state are those computed for
drive current `I[i]`. -/
theorem C4_sweep_fresh_start_aligned (ivp : Ivp) (aux : Aux) (g : Globals)
    (m : Model) (I : List ℝ) :
    (solve_for_I_coil ivp aux g m I).1.length = I.length
    ∧ (solve_for_I_coil ivp aux g m I).2.1.length = I.length
    ∧ ∀ i : ℕ, i < I.length →
        (solve_for_I_coil ivp aux g m I).2.1[i]? =
          some (ivp (f_dy aux g { m with I_coil := I.getD i 0 }) (0, 5e-2)
            ![m.T_e_0, m.T_g_0, m.n_e_0, m.n_g_0])
        ∧ (solve_for_I_coil ivp aux g m I).1[i]? =
          some (P_rf aux { m with I_coil := I.getD i 0 }
            (ivp (f_dy aux g { m with I_coil := I.getD i 0 }) (0, 5e-2)
              ![m.T_e_0, m.T_g_0, m.n_e_0, m.n_g_0] 0)
            (ivp (f_dy aux g { m with I_coil := I.getD i 0 }) (0, 5e-2)
              ![m.T_e_0, m.T_g_0, m.n_e_0, m.n_g_0] 1)
            (ivp (f_dy aux g { m with I_coil := I.getD i 0 }) (0, 5e-2)
              ![m.T_e_0, m.T_g_0, m.n_e_0, m.n_g_0] 2)
            (ivp (f_dy aux g { m with I_coil := I.getD i 0 }) (0, 5e-2)
              ![m.T_e_0, m.T_g_0, m.n_e_0, m.n_g_0] 3)) := by
  refine ⟨sweep_fst_length ivp aux g m I, sweep_snd_length ivp aux g m I, ?_⟩
  intro i hi
  have h := sweep_getElem ivp aux g m I i hi
  exact ⟨h.2, h.1⟩

/-- Witness for C4 at a concrete model, integrator and one-point sweep. -/
theorem C4_sweep_fresh_start_aligned_witness :
    (solve_for_I_coil ivpZ auxZ gNone mXe [2]).2.1[0]? =
      some (ivpZ (f_dy auxZ gNone { mXe with I_coil := 2 }) (0, 5e-2)
        ![mXe.T_e_0, mXe.T_g_0, mXe.n_e_0, mXe.n_g_0])
    ∧ (solve_for_I_coil ivpZ auxZ gNone mXe [2]).1[0]? =
      some (P_rf auxZ { mXe with I_coil := 2 }
        (ivpZ (f_dy auxZ gNone { mXe with I_coil := 2 }) (0, 5e-2)
          ![mXe.T_e_0, mXe.T_g_0, mXe.n_e_0, mXe.n_g_0] 0)
        (ivpZ (f_dy auxZ gNone { mXe with I_coil := 2 }) (0, 5e-2)
          ![mXe.T_e_0, mXe.T_g_0, mXe.n_e_0, mXe.n_g_0] 1)
        (ivpZ (f_dy auxZ gNone { mXe with I_coil := 2 }) (0, 5e-2)
          ![mXe.T_e_0, mXe.T_g_0, mXe.n_e_0, mXe.n_g_0] 2)
        (ivpZ (f_dy auxZ gNone { mXe with I_coil := 2 }) (0, 5e-2)
          ![mXe.T_e_0, mXe.T_g_0, mXe.n_e_0, mXe.n_g_0] 3)) :=
  (C4_sweep_fresh_start_aligned ivpZ auxZ gNone mXe [2]).2.2 0 (by norm_num)

/-- C5: the three built rate-constant interpolants follow one uniform
out-of-range policy: with `bounds_error=True` set on all three channels,
every evaluation outside the built grid fails with the out-of-range error,
and every evaluation inside the grid succeeds. -/
theorem C5_uniform_range_policy (eEl csEl eEx csEx eIz csIz : List ℝ)
    (x : ℝ) :
    (x < 0.1 * e_c / k_B ∨ 100 * e_c / k_B < x →
      interpEval (load_chemistry eEl csEl eEx csEx eIz csIz).1 x
        = .error .rangeError
      ∧ interpEval (load_chemistry eEl csEl eEx csEx eIz csIz).2.1 x
        = .error .rangeError
      ∧ interpEval (load_chemistry eEl csEl eEx csEx eIz csIz).2.2 x
        = .error .rangeError)
    ∧ (0.1 * e_c / k_B ≤ x → x ≤ 100 * e_c / k_B →
      (∃ y, interpEval (load_chemistry eEl csEl eEx csEx eIz csIz).1 x
        = .ok y)
      ∧ (∃ y, interpEval (load_chemistry eEl csEl eEx csEx eIz csIz).2.1 x
        = .ok y)
      ∧ (∃ y, interpEval (load_chemistry eEl csEl eEx csEx eIz csIz).2.2 x
        = .ok y)) := by
  have key_err : ∀ E cs : List ℝ, x < 0.1 * e_c / k_B ∨ 100 * e_c / k_B < x →
      interpEval (load_channel E cs) x = .error .rangeError := by
    intro E cs h
    rw [interpEval_load_channel]
    rcases h with h | h
    · rw [if_pos h]
    · rw [if_neg (by linarith [chemTmin_le_chemTmax]), if_pos h]
  have key_ok : ∀ E cs : List ℝ, 0.1 * e_c / k_B ≤ x → x ≤ 100 * e_c / k_B →
      ∃ y, interpEval (load_channel E cs) x = .ok y := by
    intro E cs h1 h2
    refine ⟨piecewiseLin chemGrid (kArray E cs) x, ?_⟩
    rw [interpEval_load_channel, if_neg (not_lt.mpr h1),
      if_neg (not_lt.mpr h2)]
  exact ⟨fun h => ⟨key_err eEl csEl h, key_err eEx csEx h, key_err eIz csIz h⟩,
    fun h1 h2 => ⟨key_ok eEl csEl h1 h2, key_ok eEx csEx h1 h2,
      key_ok eIz csIz h1 h2⟩⟩

/-- Witness for C5: evaluation at `0` (below the grid) fails and
evaluation at the kelvin equivalent of 1 eV (inside the grid) succeeds, on
the elastic channel built from empty curves. -/
theorem C5_uniform_range_policy_witness :
    interpEval (load_chemistry [] [] [] [] [] []).1 0 = .error .rangeError
    ∧ ∃ y, interpEval (load_chemistry [] [] [] [] [] []).1 (e_c / k_B)
        = .ok y :=
  ⟨((C5_uniform_range_policy [] [] [] [] [] [] 0).1
      (Or.inl (by norm_num [e_c, k_B]))).1,
   ((C5_uniform_range_policy [] [] [] [] [] [] (e_c / k_B)).2
      (by norm_num [e_c, k_B]) (by norm_num [e_c, k_B])).1⟩

/-- C6 counterexample: at an initial state with `n_e = 0` the derivative
evaluation does not raise `DomainError`: on a fully-resolved instance it
returns a value (the divisions are performed unconditionally). -/
theorem C6_counterexample :
    yNeZero 2 = 0
    ∧ f_dy auxZ gFull mFull 0 yNeZero ≠ Except.error PyErr.domainError := by
  refine ⟨rfl, ?_⟩
  rw [f_dy_ok auxZ gFull mFull 0 yNeZero 0 0
    (P_loss_auxZ_eval _ _ _ _) (gas_heating_auxZ_eval _ _ _ _)]
  simp

/-- C6 (amended): there is no zero-density check: whenever the power terms
of `f_dy` evaluate, the derivative at a state with `n_e = 0` or `n_g = 0`
returns normally (with the host's division-by-zero semantics) instead of
raising `DomainError`. -/
theorem C6_no_zero_density_check (aux : Aux) (g : Globals) (m : Model)
    (t : ℝ) (y : Fin 4 → ℝ) (pl gh : ℝ)
    (hpl : P_loss aux g m (y 0) (y 1) (y 2) (y 3) = .ok pl)
    (hgh : gas_heating aux g m (y 0) (y 1) (y 2) (y 3) = .ok gh)
    (hzero : y 2 = 0 ∨ y 3 = 0) :
    ∃ v, f_dy aux g m t y = Except.ok v :=
  ⟨_, f_dy_ok aux g m t y pl gh hpl hgh⟩

/-- Witness for the amended C6 at a concrete instance and a zero-electron-
density state. -/
theorem C6_no_zero_density_check_witness :
    ∃ v, f_dy auxZ gFull mFull 0 yNeZero = Except.ok v :=
  C6_no_zero_density_check auxZ gFull mFull 0 yNeZero 0 0
    (P_loss_auxZ_eval _ _ _ _) (gas_heating_auxZ_eval _ _ _ _)
    (Or.inl rfl)

/-- C7 counterexample: on a constructed instance (no extended-chemistry
definitions) the loss and heating evaluations do not produce the
configuration error `ConfigError`: they fail with the attribute-lookup
error instead. -/
theorem C7_counterexample :
    P_loss auxZ gNone mXe 1 1 1 1 ≠ Except.error PyErr.configError
    ∧ gas_heating auxZ gNone mXe 1 1 1 1 ≠ Except.error PyErr.configError := by
  rw [P_loss_none auxZ gNone mXe 1 1 1 1 rfl,
    gas_heating_none auxZ gNone mXe 1 1 1 1 rfl]
  constructor <;> simp

/-- C7 (amended): without the extended-chemistry rate definitions
(`K_diss` undefined on the instance), `power_loss` and `gas_heating` do
not return a silent zero — they fail — but with Python's attribute-lookup
error (`AttributeError` on `self.K_diss`), not with `ConfigError`. -/
theorem C7_missing_chemistry_fails (aux : Aux) (g : Globals) (m : Model)
    (T_e T_g n_e n_g : ℝ) (hKd : m.K_diss = none) :
    P_loss aux g m T_e T_g n_e n_g = .error .attributeError
    ∧ gas_heating aux g m T_e T_g n_e n_g = .error .attributeError :=
  ⟨P_loss_none aux g m T_e T_g n_e n_g hKd,
   gas_heating_none aux g m T_e T_g n_e n_g hKd⟩

/-- Witness for the amended C7 on the constructed instance. -/
theorem C7_missing_chemistry_fails_witness :
    P_loss auxZ gNone mXe 2 2 2 2 = .error .attributeError
    ∧ gas_heating auxZ gNone mXe 2 2 2 2 = .error .attributeError :=
  C7_missing_chemistry_fails auxZ gNone mXe 2 2 2 2 rfl

/-- C8 counterexample: the sweep mutates the model's configuration: after
sweeping over the one-point current list `[5]`, the model object differs
from the original (whose `I_coil` was `3`). -/
theorem C8_counterexample :
    (solve_for_I_coil ivpZ auxZ gNone mXe [5]).2.2 ≠ mXe := by
  rw [sweep_model]
  intro h
  have h5 := congrArg Model.I_coil h
  simp [mXe] at h5

/-- C8 (amended): each sweep-point evaluation sets the model's `I_coil`
field to that point's drive current; after the sweep `I_coil` holds the
last current of the input list (it is unchanged only for an empty sweep),
and every other configuration field and the three rate interpolants are
unchanged. -/
theorem C8_sweep_mutates_exactly_I_coil (ivp : Ivp) (aux : Aux)
    (g : Globals) (m : Model) (I : List ℝ) :
    (solve_for_I_coil ivp aux g m I).2.2 =
      { m with I_coil := I.getLast?.getD m.I_coil } :=
  sweep_model ivp aux g m I

/-- C9 counterexample: the power recorded by the sweep is not the absorbed
power `R_ind * I^2 / 2` at the final state: with `R_coil = 1` the recorded
value includes the coil's ohmic contribution. -/
theorem C9_counterexample :
    (solve_for_I_coil ivpZ auxZ gNone mXe [2]).1[0]? ≠
      some (P_abs auxZ { mXe with I_coil := 2 }
        (ivpZ (f_dy auxZ gNone { mXe with I_coil := 2 }) (0, 5e-2)
          ![mXe.T_e_0, mXe.T_g_0, mXe.n_e_0, mXe.n_g_0] 0)
        (ivpZ (f_dy auxZ gNone { mXe with I_coil := 2 }) (0, 5e-2)
          ![mXe.T_e_0, mXe.T_g_0, mXe.n_e_0, mXe.n_g_0] 2)
        (ivpZ (f_dy auxZ gNone { mXe with I_coil := 2 }) (0, 5e-2)
          ![mXe.T_e_0, mXe.T_g_0, mXe.n_e_0, mXe.n_g_0] 3)) := by
  have h := (sweep_getElem ivpZ auxZ gNone mXe [2] 0 (by norm_num)).1
  rw [h]
  simp only [P_rf, P_abs, auxZ, ivpZ, mXe, Option.some.injEq]
  norm_num

/-- C9 (amended): the power recorded at index `i` is `P_rf` at that
point's final state: `(R_ind(geometry, drive frequency, n_e, n_g,
K_el(T_e)) + R_coil) * I[i]^2 / 2` — it includes the coil resistance
`R_coil`, so it is the absorbed power `R_ind * I^2 / 2` only when
`R_coil = 0`. -/
theorem C9_recorded_power_includes_R_coil (ivp : Ivp) (aux : Aux)
    (g : Globals) (m : Model) (I : List ℝ) (i : ℕ) (hi : i < I.length) :
    (solve_for_I_coil ivp aux g m I).1[i]? =
      some ((1 / 2) * (aux.R_ind m.R m.L m.N m.omega
          (ivp (f_dy aux g { m with I_coil := I.getD i 0 }) (0, 5e-2)
            ![m.T_e_0, m.T_g_0, m.n_e_0, m.n_g_0] 2)
          (ivp (f_dy aux g { m with I_coil := I.getD i 0 }) (0, 5e-2)
            ![m.T_e_0, m.T_g_0, m.n_e_0, m.n_g_0] 3)
          (m.K_el (ivp (f_dy aux g { m with I_coil := I.getD i 0 })
            (0, 5e-2) ![m.T_e_0, m.T_g_0, m.n_e_0, m.n_g_0] 0))
        + m.R_coil) * (I.getD i 0) ^ 2) := by
  have h := (sweep_getElem ivp aux g m I i hi).1
  rw [h]
  rfl

/-- Witness for the amended C9 at a concrete model, integrator and
one-point sweep. -/
theorem C9_recorded_power_includes_R_coil_witness :
    (solve_for_I_coil ivpZ auxZ gNone mXe [2]).1[0]? =
      some ((1 / 2) * (auxZ.R_ind mXe.R mXe.L mXe.N mXe.omega
          (ivpZ (f_dy auxZ gNone { mXe with I_coil := 2 }) (0, 5e-2)
            ![mXe.T_e_0, mXe.T_g_0, mXe.n_e_0, mXe.n_g_0] 2)
          (ivpZ (f_dy auxZ gNone { mXe with I_coil := 2 }) (0, 5e-2)
            ![mXe.T_e_0, mXe.T_g_0, mXe.n_e_0, mXe.n_g_0] 3)
          (mXe.K_el (ivpZ (f_dy auxZ gNone { mXe with I_coil := 2 })
            (0, 5e-2) ![mXe.T_e_0, mXe.T_g_0, mXe.n_e_0, mXe.n_g_0] 0))
        + mXe.R_coil) * (2 : ℝ) ^ 2) :=
  C9_recorded_power_includes_R_coil ivpZ auxZ gNone mXe [2] 0 (by norm_num)

/-- C10: none of `solve`, `solve_for_I_coil`, `f_dy`, `gas_heating`,
`particle_balance_e`, `particle_balance_g` is an attribute of a
constructed `GlobalModel` instance — `gas_heating` is a module-level
function and the others are nested inside its body after its `return` —
so invoking any of them on an instance fails attribute lookup for every
input. -/
theorem C10_dynamics_not_class_attributes :
    getattrFound "solve" = false
    ∧ getattrFound "solve_for_I_coil" = false
    ∧ getattrFound "f_dy" = false
    ∧ getattrFound "gas_heating" = false
    ∧ getattrFound "particle_balance_e" = false
    ∧ getattrFound "particle_balance_g" = false := by
  decide
